import Mathlib

/-!
# Verification of the `pm` stub collaborators (go-livepeer)

Shallow embedding of `src/pm/stub.go`: the stub ticket store, signature
verifier, broker and validator, together with spec-modelled definitions for
the production validator and winning-ticket evaluator (whose code is not in
this package; only their canned test doubles are).

Go conventions mapped to Lean:
- addresses (`ethcommon.Address`) and hashes (`ethcommon.Hash`) are `Nat`;
- `[]byte` is `List Nat`;
- `*big.Int` is `Option Int` where the pointer may be nil (broker balances),
  plain `Int` where it is always a value (recipientRand);
- Go maps are total functions with the zero value as default
  (`nil` slice = `[]`, missing `*big.Int` = `none`, missing `bool` = `false`);
- a Go `error` result is `Option String` (`none` = nil error);
- a mutating method returns the new state paired with its Go results.
-/

namespace PM

/-- The ticket value from the spec data model (§3): the `pm.Ticket` struct is
not part of `stub.go`, so its fields follow the spec; nothing below depends on
the exact field list, only on tickets being comparable values with a
`recipientRandHash` and a `winProb`. -/
structure Ticket where
  sender : Nat
  recipient : Nat
  faceValue : Int
  winProb : Nat
  senderNonce : Nat
  recipientRandHash : Nat
  deriving DecidableEq, Repr

/-- State of `stubTicketStore` (`stub.go:14-21`).  The three Go maps from
sessionID to slices are total functions defaulting to the empty list, which is
how a Go map read of a missing key behaves for slice values. -/
structure StubTicketStore where
  tickets : String → List Ticket
  sigs : String → List (List Nat)
  recipientRands : String → List Int
  storeShouldFail : Bool
  loadShouldFail : Bool

/-- `newStubTicketStore` (`stub.go:23-29`): empty maps, failure flags false
(Go zero values). -/
def newStubTicketStore : StubTicketStore :=
  { tickets := fun _ => []
    sigs := fun _ => []
    recipientRands := fun _ => []
    storeShouldFail := false
    loadShouldFail := false }

/-- `stubTicketStore.Store` (`stub.go:31-44`): fail if the flag is set,
otherwise append the ticket, signature and recipientRand to the session's
slices. -/
def StubTicketStore.store (ts : StubTicketStore) (sessionID : String)
    (ticket : Ticket) (sig : List Nat) (recipientRand : Int) :
    StubTicketStore × Option String :=
  if ts.storeShouldFail then
    (ts, some "stub ticket store store error")
  else
    ({ ts with
        tickets := fun s =>
          if s = sessionID then ts.tickets s ++ [ticket] else ts.tickets s
        sigs := fun s =>
          if s = sessionID then ts.sigs s ++ [sig] else ts.sigs s
        recipientRands := fun s =>
          if s = sessionID then ts.recipientRands s ++ [recipientRand]
          else ts.recipientRands s },
      none)

/-- `stubTicketStore.Load` (`stub.go:46-55`): fail if the flag is set,
otherwise return the three slices for the session. -/
def StubTicketStore.load (ts : StubTicketStore) (sessionID : String) :
    List Ticket × List (List Nat) × List Int × Option String :=
  if ts.loadShouldFail then
    ([], [], [], some "stub ticket store load error")
  else
    (ts.tickets sessionID, ts.sigs sessionID, ts.recipientRands sessionID, none)

/-- One `Store` call's arguments, for reasoning about call sequences. -/
structure StoreCall where
  sessionID : String
  ticket : Ticket
  sig : List Nat
  recipientRand : Int
  deriving DecidableEq, Repr

/-- Run a sequence of `Store` calls, threading the state and discarding the
error results. -/
def runStores (ts : StubTicketStore) : List StoreCall → StubTicketStore
  | [] => ts
  | c :: cs => runStores (ts.store c.sessionID c.ticket c.sig c.recipientRand).1 cs

/-- An operation against a `stubTicketStore`, as exercised by the package's
tests: a `Store` call, a `Load` call, or a direct toggle of one of the
failure flags (the tests set those struct fields directly). -/
inductive StoreOp where
  | storeCall (c : StoreCall)
  | loadCall (sid : String)
  | setStoreShouldFail (b : Bool)
  | setLoadShouldFail (b : Bool)
  deriving DecidableEq, Repr

/-- Apply one operation to the store state.  `Load` takes only a read lock and
never mutates (`stub.go:46-55`). -/
def applyOp (ts : StubTicketStore) : StoreOp → StubTicketStore
  | .storeCall c => (ts.store c.sessionID c.ticket c.sig c.recipientRand).1
  | .loadCall _ => ts
  | .setStoreShouldFail b => { ts with storeShouldFail := b }
  | .setLoadShouldFail b => { ts with loadShouldFail := b }

/-- Run a sequence of operations from a given state. -/
def runOps (ts : StubTicketStore) (ops : List StoreOp) : StubTicketStore :=
  ops.foldl applyOp ts

/-- `true` iff some `Store` call for session `sid` in the sequence succeeds
(runs while `storeShouldFail` is false) when executed from state `ts`. -/
def storeSucceededFor (ts : StubTicketStore) (sid : String) :
    List StoreOp → Bool
  | [] => false
  | op :: ops =>
    (match op with
     | .storeCall c => c.sessionID == sid && !ts.storeShouldFail
     | _ => false)
    || storeSucceededFor (applyOp ts op) sid ops

/-- State of `stubSigVerifier` (`stub.go:57-59`). -/
structure StubSigVerifier where
  verifyResult : Bool
  deriving DecidableEq, Repr

/-- `stubSigVerifier.SetVerifyResult` (`stub.go:61-63`). -/
def StubSigVerifier.setVerifyResult (sv : StubSigVerifier) (b : Bool) :
    StubSigVerifier :=
  { sv with verifyResult := b }

/-- `stubSigVerifier.Verify` (`stub.go:65-67`): returns the canned flag,
ignoring address, message and signature. -/
def StubSigVerifier.verify (sv : StubSigVerifier) (_addr : Nat)
    (_msg _sig : List Nat) : Bool :=
  sv.verifyResult

/-- State of `stubBroker` (`stub.go:69-77`).  `deposits` and `penaltyEscrows`
map addresses to `*big.Int` values (`none` = nil pointer, the Go zero value of
a missing key); `usedTickets` is keyed by the ticket hash. -/
structure StubBroker where
  deposits : Nat → Option Int
  penaltyEscrows : Nat → Option Int
  usedTickets : Nat → Bool
  approvedSigners : Nat → Bool
  redeemShouldFail : Bool
  getDepositShouldFail : Bool
  getPenaltyEscrowShouldFail : Bool

/-- `newStubBroker` (`stub.go:79-86`). -/
def newStubBroker : StubBroker :=
  { deposits := fun _ => none
    penaltyEscrows := fun _ => none
    usedTickets := fun _ => false
    approvedSigners := fun _ => false
    redeemShouldFail := false
    getDepositShouldFail := false
    getPenaltyEscrowShouldFail := false }

/-- `stubBroker.RedeemWinningTicket` (`stub.go:124-132`): fail if the flag is
set, otherwise mark `ticket.Hash()` used.  `Ticket.Hash` is not part of
`stub.go` (the spec calls it the canonical identity digest, §3), so it is a
parameter `hashFn`; every theorem below holds for an arbitrary digest. -/
def StubBroker.redeemWinningTicket (b : StubBroker) (hashFn : Ticket → Nat)
    (ticket : Ticket) (_sig : List Nat) (_recipientRand : Int) :
    StubBroker × Option String :=
  if b.redeemShouldFail then
    (b, some "stub broker redeem error")
  else
    ({ b with usedTickets := fun h =>
        if h = hashFn ticket then true else b.usedTickets h },
      none)

/-- `stubBroker.IsUsedTicket` (`stub.go:134-136`): map lookup, never errors. -/
def StubBroker.isUsedTicket (b : StubBroker) (hashFn : Ticket → Nat)
    (ticket : Ticket) : Bool × Option String :=
  (b.usedTickets (hashFn ticket), none)

/-- `stubBroker.SetDeposit` (`stub.go:142-144`). -/
def StubBroker.setDeposit (b : StubBroker) (addr : Nat) (amount : Int) :
    StubBroker :=
  { b with deposits := fun a =>
      if a = addr then some amount else b.deposits a }

/-- `stubBroker.GetDeposit` (`stub.go:146-152`): fail if the flag is set,
otherwise return the stored amount (nil for an unset address). -/
def StubBroker.getDeposit (b : StubBroker) (addr : Nat) :
    Option Int × Option String :=
  if b.getDepositShouldFail then
    (none, some "stub broker get deposit error")
  else
    (b.deposits addr, none)

/-- `stubBroker.SetPenaltyEscrow` (`stub.go:154-156`). -/
def StubBroker.setPenaltyEscrow (b : StubBroker) (addr : Nat) (amount : Int) :
    StubBroker :=
  { b with penaltyEscrows := fun a =>
      if a = addr then some amount else b.penaltyEscrows a }

/-- `stubBroker.GetPenaltyEscrow` (`stub.go:158-164`). -/
def StubBroker.getPenaltyEscrow (b : StubBroker) (addr : Nat) :
    Option Int × Option String :=
  if b.getPenaltyEscrowShouldFail then
    (none, some "stub broker get penalty escrow error")
  else
    (b.penaltyEscrows addr, none)

/-- State of `stubValidator` (`stub.go:166-169`).  The Go fields are
`isValidTicket` and `isWinningTicket`; the latter is suffixed `Flag` here
because Lean does not allow a method and a field to share a name. -/
structure StubValidator where
  isValidTicket : Bool
  isWinningTicketFlag : Bool
  deriving DecidableEq, Repr

/-- `stubValidator.ValidateTicket` (`stub.go:179-185`): returns the canned
error or nil, ignoring the ticket, signature and recipientRand. -/
def StubValidator.validateTicket (v : StubValidator) (_ticket : Ticket)
    (_sig : List Nat) (_recipientRand : Int) : Option String :=
  if !v.isValidTicket then some "stub validator invalid ticket error"
  else none

/-- `stubValidator.IsWinningTicket` (`stub.go:187-189`): returns the canned
flag. -/
def StubValidator.isWinningTicket (v : StubValidator) (_ticket : Ticket)
    (_sig : List Nat) (_recipientRand : Int) : Bool :=
  v.isWinningTicketFlag

/-- Environment of cryptographic and session checks the production validator
delegates to.  Modelled from the spec: the production `ValidateTicket` is not
in this package (only its stub is), and §4.1 step 2 / §6 say it checks
signature authenticity, that `recipientRandHash` matches `hash(recipientRand)`,
nonce freshness and session-parameter agreement; the concrete hash and
signature scheme are left open (§9), so they are fields here. -/
structure SpecValidatorEnv where
  hashCommit : Int → Nat
  sigOK : Ticket → List Nat → Bool
  nonceOK : Ticket → Bool
  paramsOK : Ticket → Bool

/-- Modelled from the spec: the production `Validator.ValidateTicket`
(§4.1 step 2, §6), missing from `src/`.  It fails with `InvalidTicket` on
signature mismatch, bad commitment (`hash(recipientRand) ≠ recipientRandHash`),
nonce reuse, or parameter mismatch, and returns nil otherwise. -/
def specValidateTicket (env : SpecValidatorEnv) (ticket : Ticket)
    (sig : List Nat) (recipientRand : Int) : Option String :=
  if !env.sigOK ticket sig then
    some "InvalidTicket: signature mismatch"
  else if env.hashCommit recipientRand ≠ ticket.recipientRandHash then
    some "InvalidTicket: bad recipientRand commitment"
  else if !env.nonceOK ticket then
    some "InvalidTicket: senderNonce reuse"
  else if !env.paramsOK ticket then
    some "InvalidTicket: session parameter mismatch"
  else
    none

/-- The fixed integer range in which the winning digest is interpreted
(§3: `winProb` is a numerator over 2^256). -/
def ticketDigestRange : Nat := 2 ^ 256

/-- Modelled from the spec: the production winning-ticket evaluator (§4.2),
missing from `src/`.  Compute a digest over the ticket identity and the
revealed `recipientRand`, interpret it as an unsigned integer in the fixed
range, and declare a winner iff it is strictly below `winProb` scaled into
that range (`winProb` is already expressed over that range, §3).  The concrete
digest construction is left open (§9), so it is the parameter `digest`. -/
def specIsWinningTicket (digest : Ticket → Int → Nat) (ticket : Ticket)
    (recipientRand : Int) : Bool :=
  decide (digest ticket recipientRand % ticketDigestRange < ticket.winProb)

/-- A concrete ticket used to instantiate the theorems below on closed
inputs. -/
def sampleTicket : Ticket :=
  { sender := 1
    recipient := 2
    faceValue := 100
    winProb := 3
    senderNonce := 4
    recipientRandHash := 7 }

/-- A second concrete ticket, distinct from `sampleTicket`. -/
def otherTicket : Ticket :=
  { sender := 5
    recipient := 6
    faceValue := 50
    winProb := 3
    senderNonce := 8
    recipientRandHash := 9 }

/-- A concrete digest for instantiating the parametrised broker and evaluator
theorems: the ticket's sender nonce (any function works; the theorems are
digest-independent). -/
def sampleHash (t : Ticket) : Nat := t.senderNonce

/-- A concrete validator environment for instantiating the spec-modelled
validator theorems: the commitment hash is the absolute value of the secret,
and the other checks always pass. -/
def sampleEnv : SpecValidatorEnv :=
  { hashCommit := fun r => r.toNat
    sigOK := fun _ _ => true
    nonceOK := fun _ => true
    paramsOK := fun _ => true }

/-!
## Library lemmas about `runStores` and `runOps`
-/

/-- `Store` never changes either failure flag, so running any sequence of
`Store` calls leaves `storeShouldFail` untouched. -/
theorem runStores_storeShouldFail (calls : List StoreCall) :
    ∀ ts : StubTicketStore,
      (runStores ts calls).storeShouldFail = ts.storeShouldFail := by
  induction calls with
  | nil => intro ts; rfl
  | cons c cs ih =>
    intro ts
    rw [runStores, ih]
    by_cases hf : ts.storeShouldFail <;> simp [StubTicketStore.store, hf]

/-- Likewise `Store` leaves `loadShouldFail` untouched. -/
theorem runStores_loadShouldFail (calls : List StoreCall) :
    ∀ ts : StubTicketStore,
      (runStores ts calls).loadShouldFail = ts.loadShouldFail := by
  induction calls with
  | nil => intro ts; rfl
  | cons c cs ih =>
    intro ts
    rw [runStores, ih]
    by_cases hf : ts.storeShouldFail <;> simp [StubTicketStore.store, hf]

/-- Running `Store` calls from a state whose store flag is off appends exactly
the calls for session `sid`, in call order, to that session's ticket slice. -/
theorem runStores_tickets (calls : List StoreCall) :
    ∀ ts : StubTicketStore, ts.storeShouldFail = false → ∀ sid : String,
      (runStores ts calls).tickets sid
        = ts.tickets sid
          ++ (calls.filter fun c => c.sessionID == sid).map StoreCall.ticket := by
  induction calls with
  | nil => intro ts _ sid; simp [runStores]
  | cons c cs ih =>
    intro ts hf sid
    rw [runStores]
    have hstep :
        (ts.store c.sessionID c.ticket c.sig c.recipientRand).1.storeShouldFail
          = false := by
      simp [StubTicketStore.store, hf]
    rw [ih _ hstep sid]
    rcases eq_or_ne c.sessionID sid with hs | hs
    · simp [StubTicketStore.store, hf, hs, List.filter]
    · have hb : (c.sessionID == sid) = false := beq_eq_false_iff_ne.mpr hs
      simp [StubTicketStore.store, hf, hs.symm, List.filter, hb]

/-- Same statement for the signature slices. -/
theorem runStores_sigs (calls : List StoreCall) :
    ∀ ts : StubTicketStore, ts.storeShouldFail = false → ∀ sid : String,
      (runStores ts calls).sigs sid
        = ts.sigs sid
          ++ (calls.filter fun c => c.sessionID == sid).map StoreCall.sig := by
  induction calls with
  | nil => intro ts _ sid; simp [runStores]
  | cons c cs ih =>
    intro ts hf sid
    rw [runStores]
    have hstep :
        (ts.store c.sessionID c.ticket c.sig c.recipientRand).1.storeShouldFail
          = false := by
      simp [StubTicketStore.store, hf]
    rw [ih _ hstep sid]
    rcases eq_or_ne c.sessionID sid with hs | hs
    · simp [StubTicketStore.store, hf, hs, List.filter]
    · have hb : (c.sessionID == sid) = false := beq_eq_false_iff_ne.mpr hs
      simp [StubTicketStore.store, hf, hs.symm, List.filter, hb]

/-- Same statement for the recipientRand slices. -/
theorem runStores_recipientRands (calls : List StoreCall) :
    ∀ ts : StubTicketStore, ts.storeShouldFail = false → ∀ sid : String,
      (runStores ts calls).recipientRands sid
        = ts.recipientRands sid
          ++ (calls.filter fun c => c.sessionID == sid).map
              StoreCall.recipientRand := by
  induction calls with
  | nil => intro ts _ sid; simp [runStores]
  | cons c cs ih =>
    intro ts hf sid
    rw [runStores]
    have hstep :
        (ts.store c.sessionID c.ticket c.sig c.recipientRand).1.storeShouldFail
          = false := by
      simp [StubTicketStore.store, hf]
    rw [ih _ hstep sid]
    rcases eq_or_ne c.sessionID sid with hs | hs
    · simp [StubTicketStore.store, hf, hs, List.filter]
    · have hb : (c.sessionID == sid) = false := beq_eq_false_iff_ne.mpr hs
      simp [StubTicketStore.store, hf, hs.symm, List.filter, hb]

/-- Unfolding lemma: running a cons of operations. -/
theorem runOps_cons (ts : StubTicketStore) (op : StoreOp) (ops : List StoreOp) :
    runOps ts (op :: ops) = runOps (applyOp ts op) ops := rfl

/-- One operation preserves the per-session balance: equal lengths of the
ticket, signature and recipientRand slices. -/
theorem applyOp_preserves_balance (ts : StubTicketStore)
    (h : ∀ sid, (ts.tickets sid).length = (ts.sigs sid).length
        ∧ (ts.tickets sid).length = (ts.recipientRands sid).length)
    (op : StoreOp) :
    ∀ sid, ((applyOp ts op).tickets sid).length
          = ((applyOp ts op).sigs sid).length
        ∧ ((applyOp ts op).tickets sid).length
          = ((applyOp ts op).recipientRands sid).length := by
  cases op with
  | storeCall c =>
    intro sid
    obtain ⟨h1, h2⟩ := h sid
    by_cases hf : ts.storeShouldFail
    · simpa [applyOp, StubTicketStore.store, hf] using h sid
    · rcases eq_or_ne sid c.sessionID with hs | hs
      · subst hs
        simp [applyOp, StubTicketStore.store, hf]
        all_goals omega
      · simp [applyOp, StubTicketStore.store, hf, hs]
        all_goals omega
  | loadCall sid2 => simpa [applyOp] using h
  | setStoreShouldFail b => simpa [applyOp] using h
  | setLoadShouldFail b => simpa [applyOp] using h

/-- Any run of operations preserves the per-session balance. -/
theorem runOps_preserves_balance (ops : List StoreOp) :
    ∀ ts : StubTicketStore,
      (∀ sid, (ts.tickets sid).length = (ts.sigs sid).length
          ∧ (ts.tickets sid).length = (ts.recipientRands sid).length) →
      ∀ sid, ((runOps ts ops).tickets sid).length
            = ((runOps ts ops).sigs sid).length
          ∧ ((runOps ts ops).tickets sid).length
            = ((runOps ts ops).recipientRands sid).length := by
  induction ops with
  | nil => intro ts h; exact h
  | cons op ops ih =>
    intro ts h
    rw [runOps_cons]
    exact ih _ (applyOp_preserves_balance ts h op)

/-- If no `Store` call for session `sid` succeeds anywhere in the run, the
three slices for `sid` stay empty. -/
theorem runOps_keeps_empty (ops : List StoreOp) :
    ∀ ts : StubTicketStore, ∀ sid : String,
      storeSucceededFor ts sid ops = false →
      ts.tickets sid = [] → ts.sigs sid = [] → ts.recipientRands sid = [] →
      (runOps ts ops).tickets sid = []
        ∧ (runOps ts ops).sigs sid = []
        ∧ (runOps ts ops).recipientRands sid = [] := by
  induction ops with
  | nil => intro ts sid _ h1 h2 h3; exact ⟨h1, h2, h3⟩
  | cons op ops ih =>
    intro ts sid hns h1 h2 h3
    rw [runOps_cons]
    cases op with
    | storeCall c =>
      rw [storeSucceededFor, Bool.or_eq_false_iff] at hns
      obtain ⟨hhead, hrec⟩ := hns
      by_cases hf : ts.storeShouldFail
      · refine ih _ _ hrec ?_ ?_ ?_ <;>
          simp [applyOp, StubTicketStore.store, hf, h1, h2, h3]
      · have hf2 : ts.storeShouldFail = false := by simpa using hf
        have hne2 : sid ≠ c.sessionID := by
          intro hcon
          subst hcon
          simp [hf2] at hhead
        refine ih _ _ hrec ?_ ?_ ?_ <;>
          simp [applyOp, StubTicketStore.store, hf2, hne2, h1, h2, h3]
    | loadCall sid2 =>
      simp only [storeSucceededFor, Bool.false_or] at hns
      exact ih _ _ hns h1 h2 h3
    | setStoreShouldFail b =>
      simp only [storeSucceededFor, Bool.false_or] at hns
      exact ih _ _ hns h1 h2 h3
    | setLoadShouldFail b =>
      simp only [storeSucceededFor, Bool.false_or] at hns
      exact ih _ _ hns h1 h2 h3

/-- `applyOp` never changes `loadShouldFail` except through the explicit
toggle operation; in particular a run's final `loadShouldFail` is decided by
the toggles alone.  Stated as what the claims need: `Store` and `Load` calls
leave the flag alone. -/
theorem applyOp_loadShouldFail_store (ts : StubTicketStore) (c : StoreCall) :
    (applyOp ts (.storeCall c)).loadShouldFail = ts.loadShouldFail := by
  by_cases hf : ts.storeShouldFail <;> simp [applyOp, StubTicketStore.store, hf]

/-!
## Claim theorems
-/

/-- Claim C1: for every ticket, signature and recipientRand, the validator
returns a non-nil error whenever `recipientRand` does not hash to the ticket's
`recipientRandHash`, regardless of any other property (in particular of
winning status, which `specValidateTicket` never consults). -/
theorem specValidateTicket_rejects_bad_commitment (env : SpecValidatorEnv)
    (ticket : Ticket) (sig : List Nat) (recipientRand : Int)
    (h : env.hashCommit recipientRand ≠ ticket.recipientRandHash) :
    specValidateTicket env ticket sig recipientRand ≠ none := by
  unfold specValidateTicket
  by_cases hsig : env.sigOK ticket sig <;> simp [hsig, h]

/-- Witness for C1: the sample environment hashes the secret 3 to 3, which is
not `sampleTicket`'s commitment 7, so validation rejects. -/
theorem specValidateTicket_rejects_bad_commitment_witness :
    specValidateTicket sampleEnv sampleTicket [1] 3 ≠ none :=
  specValidateTicket_rejects_bad_commitment sampleEnv sampleTicket [1] 3
    (by decide)

/-- Claim C2: whenever the digest of the ticket and recipientRand, reduced
into the fixed range, is at least `winProb` scaled into that range, the
evaluator answers false. -/
theorem specIsWinningTicket_false_above_threshold (digest : Ticket → Int → Nat)
    (ticket : Ticket) (recipientRand : Int)
    (h : ticket.winProb ≤ digest ticket recipientRand % ticketDigestRange) :
    specIsWinningTicket digest ticket recipientRand = false := by
  simp only [specIsWinningTicket, decide_eq_false_iff_not]
  omega

/-- Witness for C2: a constant digest of 5 against `sampleTicket`'s win
probability 3. -/
theorem specIsWinningTicket_false_above_threshold_witness :
    specIsWinningTicket (fun _ _ => 5) sampleTicket 0 = false :=
  specIsWinningTicket_false_above_threshold (fun _ _ => 5) sampleTicket 0
    (by decide)

/-- Claim C3: after a successful `RedeemWinningTicket` call, `IsUsedTicket`
reports the ticket as used with a nil error, for any identity digest. -/
theorem redeem_marks_ticket_used (b : StubBroker) (hashFn : Ticket → Nat)
    (ticket : Ticket) (sig : List Nat) (recipientRand : Int)
    (h : (b.redeemWinningTicket hashFn ticket sig recipientRand).2 = none) :
    ((b.redeemWinningTicket hashFn ticket sig recipientRand).1).isUsedTicket
        hashFn ticket = (true, none) := by
  by_cases hf : b.redeemShouldFail
  · simp [StubBroker.redeemWinningTicket, hf] at h
  · simp [StubBroker.redeemWinningTicket, StubBroker.isUsedTicket, hf]

/-- Witness for C3: redeeming `sampleTicket` on a fresh broker marks it
used. -/
theorem redeem_marks_ticket_used_witness :
    ((newStubBroker.redeemWinningTicket sampleHash sampleTicket [1] 2).1).isUsedTicket
        sampleHash sampleTicket = (true, none) :=
  redeem_marks_ticket_used newStubBroker sampleHash sampleTicket [1] 2 rfl

/-- Claim C4: from a fresh store, running any sequence of `Store` calls (all
of which succeed, since the failure flag starts false and `Store` never flips
it) and then loading a session returns exactly the tickets, signatures and
recipientRands stored under that session, in call order, with a nil error —
entries for other sessions do not appear. -/
theorem store_load_roundtrip (calls : List StoreCall) (sid : String) :
    (runStores newStubTicketStore calls).load sid =
      ((calls.filter fun c => c.sessionID == sid).map StoreCall.ticket,
       (calls.filter fun c => c.sessionID == sid).map StoreCall.sig,
       (calls.filter fun c => c.sessionID == sid).map StoreCall.recipientRand,
       none) := by
  have hload : (runStores newStubTicketStore calls).loadShouldFail = false :=
    runStores_loadShouldFail calls newStubTicketStore
  rw [StubTicketStore.load, hload]
  rw [runStores_tickets calls newStubTicketStore rfl sid,
      runStores_sigs calls newStubTicketStore rfl sid,
      runStores_recipientRands calls newStubTicketStore rfl sid]
  simp [newStubTicketStore]

/-- Claim C5: `Store` returns a non-nil error exactly when `storeShouldFail`
is set, and a failed `Store` writes nothing — every subsequent `Load`
observes the state unchanged. -/
theorem store_error_iff_and_atomic (ts : StubTicketStore) (sessionID : String)
    (ticket : Ticket) (sig : List Nat) (recipientRand : Int) :
    ((ts.store sessionID ticket sig recipientRand).2 ≠ none
        ↔ ts.storeShouldFail = true)
    ∧ ((ts.store sessionID ticket sig recipientRand).2 ≠ none →
        ∀ sid, ((ts.store sessionID ticket sig recipientRand).1).load sid
          = ts.load sid) := by
  by_cases hf : ts.storeShouldFail <;>
    simp [StubTicketStore.store, hf]

/-- Witness for C5: a store with the failure flag set rejects the call and a
`Load` of any session is unchanged. -/
theorem store_error_iff_and_atomic_witness :
    ({ newStubTicketStore with storeShouldFail := true }.store "a" sampleTicket
        [1] 2).1.load "b"
      = { newStubTicketStore with storeShouldFail := true }.load "b" :=
  (store_error_iff_and_atomic
      { newStubTicketStore with storeShouldFail := true } "a" sampleTicket
      [1] 2).2 (by decide) "b"

/-- Claim C6: when `RedeemWinningTicket` returns a non-nil error the broker's
used-ticket state is unchanged: `IsUsedTicket` answers the same for every
ticket, the submitted one included. -/
theorem redeem_error_leaves_used_unchanged (b : StubBroker)
    (hashFn : Ticket → Nat) (ticket : Ticket) (sig : List Nat)
    (recipientRand : Int)
    (h : (b.redeemWinningTicket hashFn ticket sig recipientRand).2 ≠ none) :
    ∀ t2 : Ticket,
      ((b.redeemWinningTicket hashFn ticket sig recipientRand).1).isUsedTicket
          hashFn t2
        = b.isUsedTicket hashFn t2 := by
  intro t2
  by_cases hf : b.redeemShouldFail
  · simp [StubBroker.redeemWinningTicket, hf]
  · simp [StubBroker.redeemWinningTicket, hf] at h

/-- Witness for C6: a failing redeem of `sampleTicket` leaves `otherTicket`
(and every ticket) unmarked. -/
theorem redeem_error_leaves_used_unchanged_witness :
    ({ newStubBroker with redeemShouldFail := true }.redeemWinningTicket
        sampleHash sampleTicket [1] 2).1.isUsedTicket sampleHash otherTicket
      = { newStubBroker with redeemShouldFail := true }.isUsedTicket sampleHash
          otherTicket :=
  redeem_error_leaves_used_unchanged
    { newStubBroker with redeemShouldFail := true } sampleHash sampleTicket
    [1] 2 (by decide) otherTicket

/-- Claim C7: `SetDeposit` then `GetDeposit` on the same address returns the
amount with a nil error when the failure flag is off, and a nil amount with a
non-nil error when it is on; the same holds for the penalty escrow pair; and
setting one address's balance leaves every other address's observable balances
unchanged. -/
theorem broker_balance_roundtrip (b : StubBroker) (addr addr2 : Nat)
    (amount : Int) (h : addr2 ≠ addr) :
    ((b.setDeposit addr amount).getDeposit addr
        = if b.getDepositShouldFail
          then (none, some "stub broker get deposit error")
          else (some amount, none))
    ∧ (b.setDeposit addr amount).getDeposit addr2 = b.getDeposit addr2
    ∧ (b.setDeposit addr amount).getPenaltyEscrow addr2
        = b.getPenaltyEscrow addr2
    ∧ ((b.setPenaltyEscrow addr amount).getPenaltyEscrow addr
        = if b.getPenaltyEscrowShouldFail
          then (none, some "stub broker get penalty escrow error")
          else (some amount, none))
    ∧ (b.setPenaltyEscrow addr amount).getPenaltyEscrow addr2
        = b.getPenaltyEscrow addr2
    ∧ (b.setPenaltyEscrow addr amount).getDeposit addr2 = b.getDeposit addr2 := by
  refine ⟨?_, ?_, ?_, ?_, ?_, ?_⟩ <;>
    by_cases hd : b.getDepositShouldFail <;>
    by_cases he : b.getPenaltyEscrowShouldFail <;>
    simp [StubBroker.setDeposit, StubBroker.getDeposit,
          StubBroker.setPenaltyEscrow, StubBroker.getPenaltyEscrow, hd, he, h]

/-- Witness for C7: on a fresh broker, setting address 1's deposit to 7 reads
back as 7 and leaves address 2 unchanged. -/
theorem broker_balance_roundtrip_witness :
    (newStubBroker.setDeposit 1 7).getDeposit 1 = (some 7, none)
      ∧ (newStubBroker.setDeposit 1 7).getDeposit 2 = newStubBroker.getDeposit 2 := by
  have h := broker_balance_roundtrip newStubBroker 1 2 7 (by decide)
  exact ⟨by simpa [newStubBroker] using h.1, h.2.1⟩

/-- Claim C8: after any sequence of `Store` and `Load` calls and failure-flag
toggles, every session's ticket, signature and recipientRand slices have equal
length. -/
theorem ticketStore_slices_balanced (ops : List StoreOp) (sid : String) :
    ((runOps newStubTicketStore ops).tickets sid).length
      = ((runOps newStubTicketStore ops).sigs sid).length
    ∧ ((runOps newStubTicketStore ops).tickets sid).length
      = ((runOps newStubTicketStore ops).recipientRands sid).length :=
  runOps_preserves_balance ops newStubTicketStore (fun _ => ⟨rfl, rfl⟩) sid

/-- Claim C9: the stub verifier's answer never depends on the address, message
or signature — two calls with equal configured flags agree, and each call just
returns the flag. -/
theorem verify_independent_of_inputs (sv1 sv2 : StubSigVerifier)
    (addr1 addr2 : Nat) (msg1 msg2 sig1 sig2 : List Nat)
    (h : sv1.verifyResult = sv2.verifyResult) :
    sv1.verify addr1 msg1 sig1 = sv2.verify addr2 msg2 sig2
    ∧ sv1.verify addr1 msg1 sig1 = sv1.verifyResult := by
  simp [StubSigVerifier.verify, h]

/-- Witness for C9: two calls on the same configured verifier with entirely
different inputs agree. -/
theorem verify_independent_of_inputs_witness :
    ({ verifyResult := true } : StubSigVerifier).verify 1 [2] [3]
      = ({ verifyResult := true } : StubSigVerifier).verify 4 [5] [6] :=
  (verify_independent_of_inputs { verifyResult := true }
    { verifyResult := true } 1 4 [2] [5] [3] [6] rfl).1

/-- Claim C10: if no `Store` call for a session ever succeeded, `Load` of that
session returns nil slices and a nil error (provided the load-failure flag is
off at the time of the call). -/
theorem load_unknown_session_empty (ops : List StoreOp) (sid : String)
    (hstore : storeSucceededFor newStubTicketStore sid ops = false)
    (hload : (runOps newStubTicketStore ops).loadShouldFail = false) :
    (runOps newStubTicketStore ops).load sid = ([], [], [], none) := by
  obtain ⟨h1, h2, h3⟩ :=
    runOps_keeps_empty ops newStubTicketStore sid hstore rfl rfl rfl
  simp [StubTicketStore.load, hload, h1, h2, h3]

/-- Witness for C10: a run in which the only `Store` call for session "a"
happens while the store-failure flag is set (and a later call stores under
"b") still loads "a" as empty with a nil error. -/
theorem load_unknown_session_empty_witness :
    (runOps newStubTicketStore
        [StoreOp.setStoreShouldFail true,
         StoreOp.storeCall
           { sessionID := "a", ticket := sampleTicket, sig := [1],
             recipientRand := 2 },
         StoreOp.setStoreShouldFail false,
         StoreOp.storeCall
           { sessionID := "b", ticket := otherTicket, sig := [3],
             recipientRand := 4 }]).load "a"
      = ([], [], [], none) :=
  load_unknown_session_empty _ "a" (by decide) (by decide)

end PM
